import Mathlib

/-!
Verification of the Frida integration core of httptoolkit-server
(`src/interceptors/frida/frida-integration.ts`), as a shallow embedding.

Modelling conventions:
- Promise chains are embedded as explicit action traces plus an
  `Except`-valued result (`.then` runs its continuation only on success,
  `.catch` only on failure), mirroring JavaScript promise semantics.
- The session's message stream and the load request are external events;
  functions that react to them are embedded as functions of an explicit
  event list (with arrival times where a deadline matters).
- Errors are a closed inductive datatype `FError`; the JavaScript classes
  `FridaProxyError` (code `unreachable-proxy`), `FridaScriptError`
  (code `frida-script-error`) and `CustomError` map to its constructors.
-/

namespace Frida

/-- Errors that flow through the Frida integration code. `fridaProxyError`
is the `FridaProxyError` class (code `unreachable-proxy`), `fridaScriptError`
the `FridaScriptError` class built from a script `error` message,
`customError` a generic `CustomError` with message, cause and code,
`timeoutError` the rejection produced by `withTimeout` on deadline,
`jsError` a plain `Error`, and `externalError` an arbitrary foreign
rejection (e.g. a failed script load). -/
inductive FError where
  | fridaProxyError (message : String) (cause : Option FError)
  | fridaScriptError (description : String) (stack : Option String)
  | customError (message : String) (cause : Option FError) (code : String)
  | timeoutError
  | jsError (message : String)
  | externalError (tag : String)
deriving Repr

/-- Cause projection of an error (the `cause` option of the underlying
`CustomError`, when the constructor carries one). -/
def FError.cause : FError → Option FError
  | .fridaProxyError _ c => c
  | .customError _ c _ => c
  | _ => none

/-- Whether an error is an instance of the `FridaProxyError` class. -/
def isFridaProxyError : FError → Bool
  | .fridaProxyError _ _ => true
  | _ => false

/-! ### killProcess

The source:
```ts
export async function killProcess(session) {
    // We have to resume and then wait briefly before we can kill:
    await session.resume()
        .then(() => delay(100)) // Even 0 seems to work - but let's be safe
        .catch(() => {});
    await session.kill();
}
```
We embed the promise chain over an explicit action trace, parameterised
by whether `session.resume()` resolves or rejects. -/

/-- Observable actions of `killProcess`: invoking `session.resume()`,
awaiting `delay(ms)`, invoking `session.kill()`. -/
inductive KAction where
  | resumeCall
  | delayed (ms : Nat)
  | killCall
deriving Repr, DecidableEq

/-- A settled promise outcome: the actions performed while producing it,
and its result (resolved value or rejection reason). -/
structure POutcome (α : Type) where
  actions : List KAction
  result : Except FError α
deriving Repr

/-- Promise `.then`: the continuation runs only when the first promise
resolved; a rejection skips it and propagates. -/
def pthen (p : POutcome α) (f : α → POutcome β) : POutcome β :=
  match p.result with
  | .ok a => ⟨p.actions ++ (f a).actions, (f a).result⟩
  | .error e => ⟨p.actions, .error e⟩

/-- Promise `.catch`: the handler runs only when the promise rejected. -/
def pcatch (p : POutcome α) (h : FError → POutcome α) : POutcome α :=
  match p.result with
  | .ok _ => p
  | .error e => ⟨p.actions ++ (h e).actions, (h e).result⟩

/-- The behaviour of `session.resume()`: it performs the resume call and
either resolves or rejects, per the `resumeOk` parameter. -/
def sessionResume (resumeOk : Bool) : POutcome Unit :=
  ⟨[KAction.resumeCall], if resumeOk then .ok () else .error (.externalError "resume-failed")⟩

/-- The behaviour of `delay(ms)`: waits, always resolves. -/
def delayP (ms : Nat) : POutcome Unit := ⟨[KAction.delayed ms], .ok ()⟩

/-- Trace of `killProcess`, translated from the source: awaits
`session.resume().then(() => delay(100)).catch(() => {})`, then awaits
`session.kill()`. -/
def killProcess (resumeOk : Bool) : List KAction :=
  (pcatch (pthen (sessionResume resumeOk) (fun _ => delayP 100))
    (fun _ => ⟨[], .ok ()⟩)).actions
  ++ [KAction.killCall]

/-- Whether a trace performs any `delay` wait at all. -/
def hasDelay (as : List KAction) : Bool :=
  as.any fun a => match a with
    | .delayed _ => true
    | _ => false

/-- C1 (counterexample): when `session.resume()` rejects, the trace of
`killProcess` is exactly resume-then-kill — the 100 ms grace delay is
skipped (the rejection bypasses the `.then` continuation), contradicting
the claim that the resume / grace-delay / kill ordering is preserved even
when resume fails. -/
theorem killProcess_resume_failed_skips_delay :
    killProcess false = [KAction.resumeCall, KAction.killCall] ∧
    hasDelay (killProcess false) = false := by
  constructor <;> rfl

/-- C1 (amended): `killProcess` invokes resume first and kill last in every
case; when resume succeeds it waits the 100 ms grace delay between them,
but when resume rejects the rejection is swallowed and kill is invoked
with no grace delay. -/
theorem killProcess_ordering :
    killProcess true = [KAction.resumeCall, KAction.delayed 100, KAction.killCall] ∧
    killProcess false = [KAction.resumeCall, KAction.killCall] := by
  constructor <;> rfl

/-! ### String containment helpers

JavaScript builds the diagnostic messages by template-string concatenation
and `Array.prototype.join`; we reason about which candidate addresses occur
inside the resulting strings. -/

/-- Containment of one string inside another, as a decomposition of the
underlying character lists. -/
def strContains (s sub : String) : Prop :=
  ∃ pre post, s.data = pre ++ sub.data ++ post

/-- JavaScript `Array.prototype.join(sep)` on a list of strings. -/
def joinWith (sep : String) : List String → String
  | [] => ""
  | [x] => x
  | x :: y :: xs => x ++ sep ++ joinWith sep (y :: xs)

/-- JavaScript `JSON.stringify` of an array of (escape-free) strings. -/
def jsonStringify (ips : List String) : String :=
  "[" ++ joinWith "," (ips.map (fun s => "\"" ++ s ++ "\"")) ++ "]"

theorem String.data_append_eq (a b : String) : (a ++ b).data = a.data ++ b.data := rfl

theorem strContains_refl (s : String) : strContains s s :=
  ⟨[], [], by simp⟩

theorem strContains_left (a b sub : String) (h : strContains a sub) :
    strContains (a ++ b) sub := by
  obtain ⟨p, q, hpq⟩ := h
  exact ⟨p, q ++ b.data, by simp [String.data_append_eq, hpq]⟩

theorem strContains_right (a b sub : String) (h : strContains b sub) :
    strContains (a ++ b) sub := by
  obtain ⟨p, q, hpq⟩ := h
  exact ⟨a.data ++ p, q, by simp [String.data_append_eq, hpq]⟩

theorem strContains_trans (s t u : String) (h1 : strContains s t)
    (h2 : strContains t u) : strContains s u := by
  obtain ⟨p, q, hpq⟩ := h1
  obtain ⟨p2, q2, hpq2⟩ := h2
  exact ⟨p ++ p2, q2 ++ q, by simp [hpq, hpq2]⟩

theorem joinWith_contains (sep : String) (xs : List String) (x : String)
    (hx : x ∈ xs) : strContains (joinWith sep xs) x := by
  induction xs with
  | nil => cases hx
  | cons y ys ih =>
    cases hx with
    | head =>
      cases ys with
      | nil => exact strContains_refl x
      | cons z zs =>
        exact strContains_left _ _ _ (strContains_left _ _ _ (strContains_refl x))
    | tail _ hmem =>
      cases ys with
      | nil => cases hmem
      | cons z zs =>
        exact strContains_right _ _ _ (ih hmem)

theorem jsonStringify_contains (ips : List String) (ip : String) (hip : ip ∈ ips) :
    strContains (jsonStringify ips) ip := by
  have hq : strContains ("\"" ++ ip ++ "\"") ip :=
    strContains_left _ _ _ (strContains_right _ _ _ (strContains_refl ip))
  have hj : strContains (joinWith "," (ips.map (fun s => "\"" ++ s ++ "\""))) ("\"" ++ ip ++ "\"") :=
    joinWith_contains _ _ _ (List.mem_map_of_mem _ hip)
  exact strContains_left _ _ _ (strContains_right _ _ _ (strContains_trans _ _ _ hj hq))

/-! ### testAndSelectProxyAddress

The source builds a candidate IP list from the reachable interface
addresses plus the caller's `extraAddresses`, fails at once when it is
empty, builds the probe script, and races the first settling session
event (`send` / `error` messages, or a rejected script load) against a
2000 ms deadline, finally normalising every failure to a
`FridaProxyError` unless it already is one.

The reachable-interface enumeration (`getReachableInterfaces`) and the
probe-script text (`buildIpTestScript`) live outside the sources under
verification, so interface addresses are a parameter and script building
is recorded as an opaque traced action. -/

/-- The nested payload of a `send` message from the probe script. -/
inductive SendPayload where
  | connected (ip : String)
  | connectionFailed
  | other (ty : String)
deriving Repr

/-- A message delivered by the agent session. -/
inductive ProbeMessage where
  | send (p : SendPayload)
  | errorMsg (description : String) (stack : Option String)
  | logMsg (level : String) (payload : String)
deriving Repr

/-- An external event observed while the negotiation promise is pending:
a session message, the load request rejecting, or the load request
resolving (which on its own settles nothing). -/
inductive SessionEvent where
  | msg (m : ProbeMessage)
  | loadRejected (e : FError)
  | loadResolved
deriving Repr

/-- Actions performed by `testAndSelectProxyAddress`, recorded so that we
can state which code paths build and load the probe script. -/
inductive ProbeAction where
  | buildScript (ips : List String) (port : Nat)
  | createScript
  | loadScript
deriving Repr

/-- The message of the `FridaProxyError` raised on a `connection-failed`
report, translated from the source template string. -/
def connFailedMsg (proxyPort : Nat) (ips : List String) : String :=
  "Could not connect to proxy on port " ++ toString proxyPort ++ " at " ++
    (if ips.length > 1 then "any of: " ++ joinWith ", " ips else ips.headD "")

/-- The message of the wrapping `FridaProxyError` produced by the final
catch clause, translated from the source template string. -/
def wrapMsg (proxyPort : Nat) (ips : List String) : String :=
  "Proxy IP detection on target device failed for port " ++ toString proxyPort ++
    " and IPs " ++ jsonStringify ips

/-- The `onMessage` handler of `testAndSelectProxyAddress`: `send` payloads
resolve (`connected`) or reject (`connection-failed`, unexpected types),
an `error` message rejects with a wrapped `FridaScriptError`, and other
message types leave the promise pending (`none`). -/
def probeHandleMessage (proxyPort : Nat) (ips : List String) :
    ProbeMessage → Option (Except FError String)
  | .send (.connected ip) => some (.ok ip)
  | .send .connectionFailed =>
      some (.error (.fridaProxyError (connFailedMsg proxyPort ips) none))
  | .send (.other ty) =>
      some (.error (.jsError ("Unexpected message type: " ++ ty)))
  | .errorMsg d stk =>
      some (.error (.customError ("Error in Frida IP test script: " ++ d)
        (some (.fridaScriptError d stk)) "frida-ip-test-script-error"))
  | .logMsg _ _ => none

/-- How a session event settles the negotiation promise: via the message
handler, or via the `catch (e) { reject(e) }` around the script load. -/
def settleOf (proxyPort : Nat) (ips : List String) :
    SessionEvent → Option (Except FError String)
  | .msg m => probeHandleMessage proxyPort ips m
  | .loadRejected e => some (.error e)
  | .loadResolved => none

/-- First settlement of the promise over a time-stamped event list: a
promise settles exactly once, with the earliest settling event. -/
def firstSettlement (proxyPort : Nat) (ips : List String) :
    List (SessionEvent × Nat) → Option (Except FError String × Nat)
  | [] => none
  | (e, t) :: rest =>
      match settleOf proxyPort ips e with
      | some r => some (r, t)
      | none => firstSettlement proxyPort ips rest

/-- Modelled from the spec: `withTimeout` (from `src/util/promise`, not
part of the sources under verification) races the inner promise against a
fixed deadline, propagating the inner settlement when it arrives in time
and rejecting with a timeout error once the deadline is exceeded. -/
def raceResult (settle : Option (Except FError String × Nat)) : Except FError String :=
  match settle with
  | some (r, t) => if t < 2000 then r else .error .timeoutError
  | none => .error .timeoutError

/-- The final catch clause of `testAndSelectProxyAddress`: a
`FridaProxyError` is re-thrown unchanged, every other failure is wrapped
into a fresh `FridaProxyError` carrying it as cause. -/
def wrapCatch (proxyPort : Nat) (ips : List String) :
    Except FError String → Except FError String
  | .ok ip => .ok ip
  | .error e =>
      if isFridaProxyError e then .error e
      else .error (.fridaProxyError (wrapMsg proxyPort ips) (some e))

/-- The candidate IP list: interface addresses, extended by
`options.extraAddresses` when that list is present and non-empty
(the source's truthy `options.extraAddresses?.length` check). -/
def candidateIps (interfaceAddresses : List String)
    (extraAddresses : Option (List String)) : List String :=
  interfaceAddresses ++
    match extraAddresses with
    | some extra => if extra.length ≠ 0 then extra else []
    | none => []

/-- Result and action trace of `testAndSelectProxyAddress`, translated
from the source: empty candidate set fails at once with a
`FridaProxyError` (building no script); otherwise the probe script is
built, created and loaded, and the first settling session event is raced
against the 2000 ms deadline, with failures normalised by `wrapCatch`. -/
def testAndSelectProxyAddress (interfaceAddresses : List String) (proxyPort : Nat)
    (extraAddresses : Option (List String)) (events : List (SessionEvent × Nat)) :
    Except FError String × List ProbeAction :=
  let ips := candidateIps interfaceAddresses extraAddresses
  if ips.length = 0 then
    (.error (.fridaProxyError "No local IPs detected for proxy connection" none), [])
  else
    (wrapCatch proxyPort ips (raceResult (firstSettlement proxyPort ips events)),
     [.buildScript ips proxyPort, .createScript, .loadScript])

theorem firstSettlement_append_of_none (port : Nat) (ips : List String)
    (pre rest : List (SessionEvent × Nat))
    (hpre : ∀ et ∈ pre, settleOf port ips et.1 = none) :
    firstSettlement port ips (pre ++ rest) = firstSettlement port ips rest := by
  induction pre with
  | nil => rfl
  | cons et pre ih =>
    obtain ⟨e, t⟩ := et
    have h0 : settleOf port ips e = none := hpre (e, t) (List.mem_cons_self _ _)
    simpa [firstSettlement, h0] using ih (fun x hx => hpre x (List.mem_cons_of_mem _ hx))

theorem firstSettlement_eq_none (port : Nat) (ips : List String)
    (events : List (SessionEvent × Nat))
    (h : ∀ et ∈ events, settleOf port ips et.1 = none) :
    firstSettlement port ips events = none := by
  simpa using firstSettlement_append_of_none port ips events [] h

theorem connFailedMsg_contains (port : Nat) (ips : List String) (ip : String)
    (h : ip ∈ ips) : strContains (connFailedMsg port ips) ip := by
  unfold connFailedMsg
  by_cases hlen : ips.length > 1
  · rw [if_pos hlen]
    exact strContains_right _ _ _ (strContains_right _ _ _ (joinWith_contains _ _ _ h))
  · rw [if_neg hlen]
    cases ips with
    | nil => cases h
    | cons x xs =>
      cases xs with
      | nil =>
        have hx : ip = x := by simpa using h
        subst hx
        exact strContains_right _ _ _ (strContains_refl ip)
      | cons y ys => simp at hlen

theorem wrapMsg_contains (port : Nat) (ips : List String) (ip : String)
    (h : ip ∈ ips) : strContains (wrapMsg port ips) ip :=
  strContains_right _ _ _ (jsonStringify_contains ips ip h)

/-- C7: when the combined candidate set is empty, `testAndSelectProxyAddress`
fails immediately with a `FridaProxyError` and performs no probe-script
build, creation or load. -/
theorem testAndSelectProxyAddress_empty (ifaces : List String) (port : Nat)
    (extras : Option (List String)) (events : List (SessionEvent × Nat))
    (h : candidateIps ifaces extras = []) :
    testAndSelectProxyAddress ifaces port extras events =
      (.error (.fridaProxyError "No local IPs detected for proxy connection" none), []) := by
  simp [testAndSelectProxyAddress, h]

/-- C7 witness: with no reachable interfaces and no extra addresses the
negotiation fails at once, with an empty action trace. -/
theorem testAndSelectProxyAddress_empty_witness :
    testAndSelectProxyAddress [] 8000 none [(SessionEvent.loadResolved, 0)] =
      (.error (.fridaProxyError "No local IPs detected for proxy connection" none), []) :=
  testAndSelectProxyAddress_empty [] 8000 none [(SessionEvent.loadResolved, 0)] rfl

/-- C8: when the first settling session event, arriving before the 2000 ms
deadline, is a `send` message with payload `connected{ip}`, the negotiation
succeeds and returns exactly that `ip`. -/
theorem testAndSelectProxyAddress_connected (ifaces : List String) (port : Nat)
    (extras : Option (List String)) (pre post : List (SessionEvent × Nat))
    (ip : String) (t : Nat)
    (hne : candidateIps ifaces extras ≠ [])
    (hpre : ∀ et ∈ pre, settleOf port (candidateIps ifaces extras) et.1 = none)
    (ht : t < 2000) :
    (testAndSelectProxyAddress ifaces port extras
      (pre ++ (SessionEvent.msg (.send (.connected ip)), t) :: post)).1 = .ok ip := by
  have hlen : ¬ (candidateIps ifaces extras).length = 0 := by
    simpa [List.length_eq_zero] using hne
  simp [testAndSelectProxyAddress, hlen,
    firstSettlement_append_of_none _ _ _ _ hpre,
    firstSettlement, settleOf, probeHandleMessage, raceResult, ht, wrapCatch]

/-- C8 witness: a single candidate and an immediate `connected` report
resolve the negotiation to that candidate. -/
theorem testAndSelectProxyAddress_connected_witness :
    (testAndSelectProxyAddress ["10.0.0.2"] 8000 none
      [(SessionEvent.msg (.send (.connected "10.0.0.2")), 0)]).1 = .ok "10.0.0.2" :=
  testAndSelectProxyAddress_connected ["10.0.0.2"] 8000 none [] [] "10.0.0.2" 0
    (by simp [candidateIps]) (by simp) (by decide)

/-- C6: when the first settling session event, arriving before the deadline,
is a `connection-failed` report, the negotiation fails with a
`FridaProxyError` (no cause) whose message contains every candidate
address, interface-derived and extra alike. -/
theorem testAndSelectProxyAddress_connectionFailed (ifaces : List String) (port : Nat)
    (extras : Option (List String)) (pre post : List (SessionEvent × Nat)) (t : Nat)
    (hne : candidateIps ifaces extras ≠ [])
    (hpre : ∀ et ∈ pre, settleOf port (candidateIps ifaces extras) et.1 = none)
    (ht : t < 2000) :
    (testAndSelectProxyAddress ifaces port extras
        (pre ++ (SessionEvent.msg (.send .connectionFailed), t) :: post)).1
      = .error (.fridaProxyError (connFailedMsg port (candidateIps ifaces extras)) none) ∧
    ∀ ip ∈ candidateIps ifaces extras,
      strContains (connFailedMsg port (candidateIps ifaces extras)) ip := by
  have hlen : ¬ (candidateIps ifaces extras).length = 0 := by
    simpa [List.length_eq_zero] using hne
  refine ⟨?_, fun ip hip => connFailedMsg_contains port _ ip hip⟩
  simp [testAndSelectProxyAddress, hlen,
    firstSettlement_append_of_none _ _ _ _ hpre,
    firstSettlement, settleOf, probeHandleMessage, raceResult, ht, wrapCatch,
    isFridaProxyError]

/-- C6 witness: two candidates and a `connection-failed` report produce the
enumerating `FridaProxyError`. -/
theorem testAndSelectProxyAddress_connectionFailed_witness :
    (testAndSelectProxyAddress ["10.0.0.2", "192.168.1.5"] 8000 none
        [(SessionEvent.msg (.send .connectionFailed), 0)]).1
      = .error (.fridaProxyError
          (connFailedMsg 8000 (candidateIps ["10.0.0.2", "192.168.1.5"] none)) none) :=
  (testAndSelectProxyAddress_connectionFailed ["10.0.0.2", "192.168.1.5"] 8000 none
    [] [] 0 (by simp [candidateIps]) (by simp) (by decide)).1

/-- C2: for a non-empty candidate set, when no session event settles the
probe promise, the negotiation fails via the 2000 ms deadline with a
`FridaProxyError` whose cause is the timeout rejection and whose message
contains every candidate address tried. -/
theorem testAndSelectProxyAddress_timeout (ifaces : List String) (port : Nat)
    (extras : Option (List String)) (events : List (SessionEvent × Nat))
    (hne : candidateIps ifaces extras ≠ [])
    (hnomsg : ∀ et ∈ events, settleOf port (candidateIps ifaces extras) et.1 = none) :
    (testAndSelectProxyAddress ifaces port extras events).1
      = .error (.fridaProxyError (wrapMsg port (candidateIps ifaces extras))
          (some .timeoutError)) ∧
    ∀ ip ∈ candidateIps ifaces extras,
      strContains (wrapMsg port (candidateIps ifaces extras)) ip := by
  have hlen : ¬ (candidateIps ifaces extras).length = 0 := by
    simpa [List.length_eq_zero] using hne
  refine ⟨?_, fun ip hip => wrapMsg_contains port _ ip hip⟩
  simp [testAndSelectProxyAddress, hlen,
    firstSettlement_eq_none _ _ _ hnomsg, raceResult, wrapCatch, isFridaProxyError]

/-- C2 witness: one candidate and a silent probe (only a resolved load and
an ignored log message arrive) time out into the enumerating
`FridaProxyError` caused by the timeout. -/
theorem testAndSelectProxyAddress_timeout_witness :
    (testAndSelectProxyAddress ["10.0.0.2"] 8000 none
        [(SessionEvent.loadResolved, 5),
         (SessionEvent.msg (.logMsg "info" "hi"), 10)]).1
      = .error (.fridaProxyError (wrapMsg 8000 (candidateIps ["10.0.0.2"] none))
          (some .timeoutError)) :=
  (testAndSelectProxyAddress_timeout ["10.0.0.2"] 8000 none
    [(SessionEvent.loadResolved, 5), (SessionEvent.msg (.logMsg "info" "hi"), 10)]
    (by simp [candidateIps])
    (by
      intro et het
      simp only [List.mem_cons, List.mem_singleton] at het
      rcases het with h | h | h
      · subst h; rfl
      · subst h; rfl
      · cases h)).1

/-- C5: every failing outcome of `testAndSelectProxyAddress` is a
`FridaProxyError`; moreover, when the candidate set was non-empty (so the
race actually ran) and the raced settlement failed with `e0`, the surfaced
error is `e0` itself when `e0` is already a `FridaProxyError`, and
otherwise is a fresh `FridaProxyError` whose cause is exactly `e0` —
never a double wrap. -/
theorem testAndSelectProxyAddress_failure_shape (ifaces : List String) (port : Nat)
    (extras : Option (List String)) (events : List (SessionEvent × Nat)) (e : FError)
    (h : (testAndSelectProxyAddress ifaces port extras events).1 = .error e) :
    isFridaProxyError e = true ∧
    (candidateIps ifaces extras ≠ [] →
      ∀ e0, raceResult (firstSettlement port (candidateIps ifaces extras) events) = .error e0 →
        (isFridaProxyError e0 = true ∧ e = e0) ∨
        (isFridaProxyError e0 = false ∧
          e = .fridaProxyError (wrapMsg port (candidateIps ifaces extras)) (some e0) ∧
          e.cause = some e0)) := by
  by_cases hlen : (candidateIps ifaces extras).length = 0
  · have hnil : candidateIps ifaces extras = [] := List.length_eq_zero.mp hlen
    simp [testAndSelectProxyAddress, hlen] at h
    constructor
    · rw [← h]; rfl
    · intro hne; exact absurd hnil hne
  · simp only [testAndSelectProxyAddress, hlen, if_false] at h
    cases hr : raceResult (firstSettlement port (candidateIps ifaces extras) events) with
    | ok ip => rw [hr] at h; simp [wrapCatch] at h
    | error e0 =>
      rw [hr] at h
      by_cases hfp : isFridaProxyError e0 = true
      · simp [wrapCatch, hfp] at h
        refine ⟨by rw [← h]; exact hfp, fun _ e1 he1 => ?_⟩
        cases he1
        exact Or.inl ⟨hfp, h.symm⟩
      · have hfp' : isFridaProxyError e0 = false := by
          cases hb : isFridaProxyError e0
          · rfl
          · exact absurd hb hfp
        simp [wrapCatch, hfp'] at h
        refine ⟨by rw [← h]; rfl, fun _ e1 he1 => ?_⟩
        cases he1
        exact Or.inr ⟨hfp', h.symm, by rw [← h]; rfl⟩

/-- C5 witness: a script `error` message during the probe surfaces as a
`FridaProxyError` (so `isFridaProxyError` holds of the surfaced error). -/
theorem testAndSelectProxyAddress_failure_shape_witness :
    isFridaProxyError
      (FError.fridaProxyError (wrapMsg 8000 (candidateIps ["10.0.0.2"] none))
        (some (.customError "Error in Frida IP test script: boom"
          (some (.fridaScriptError "boom" none)) "frida-ip-test-script-error"))) = true :=
  (testAndSelectProxyAddress_failure_shape ["10.0.0.2"] 8000 none
    [(SessionEvent.msg (.errorMsg "boom" none), 0)]
    (FError.fridaProxyError (wrapMsg 8000 (candidateIps ["10.0.0.2"] none))
      (some (.customError "Error in Frida IP test script: boom"
        (some (.fridaScriptError "boom" none)) "frida-ip-test-script-error")))
    rfl).1

/-! ### launchScript

The source registers a message handler, requests the script load, awaits
a promise resolved by the load request and rejected by the handler on a
pre-load `error` message, and only after that await assigns
`scriptLoaded = true`:
```ts
let scriptLoaded = false;
await new Promise((resolve, reject) => {
    session.onMessage((message) => {
        if (message.type === 'error') {
            const fridaError = new FridaScriptError(message);
            if (!scriptLoaded) {
                reject(new CustomError(...));
            } else {
                console.warn(...);
            }
        } else if (message.type === 'log') { ... } else { ... }
    });
    scriptSession.loadScript().then(resolve).catch(reject);
});
scriptLoaded = true;
```
We embed it as a state machine over external events: message deliveries,
the load request settling, and the post-await `scriptLoaded = true`
assignment (a distinct event, since the handler can run between the
promise resolving and the assignment). -/

/-- Settlement state of the `await`ed launch promise. -/
inductive PromState where
  | pending
  | resolvedP
  | rejectedP (e : FError)
deriving Repr

/-- State of one `launchScript` invocation: the promise, the
`scriptLoaded` flag, and the warning / log lines emitted so far. -/
structure LaunchState where
  prom : PromState
  scriptLoaded : Bool
  warnings : List String
  logs : List String
deriving Repr

/-- Initial launch state: promise pending, `scriptLoaded = false`. -/
def launchInit : LaunchState :=
  { prom := .pending, scriptLoaded := false, warnings := [], logs := [] }

/-- Rejecting the launch promise: a no-op once it is settled. -/
def rejectProm (s : LaunchState) (e : FError) : LaunchState :=
  match s.prom with
  | .pending => { s with prom := .rejectedP e }
  | _ => s

/-- Resolving the launch promise: a no-op once it is settled. -/
def resolveProm (s : LaunchState) : LaunchState :=
  match s.prom with
  | .pending => { s with prom := .resolvedP }
  | _ => s

/-- External events during `launchScript`: session messages, the load
request settling (resolution reaches the promise via `.then(resolve)`,
rejection via `.catch(reject)`), and the `scriptLoaded = true` assignment
that runs after the awaited promise resolves. -/
inductive LaunchEvent where
  | errorMsg (description : String) (stack : Option String)
  | logMsg (level : String) (payload : String)
  | otherMsg (text : String)
  | loadResolved
  | loadRejectedE (e : FError)
  | flagSet
deriving Repr

/-- The diagnostic message of the fatal pre-load launch error, translated
from the source template string. -/
def launchFailMsg (targetName description : String) : String :=
  "Failed to run Frida script on " ++ targetName ++ ": " ++ description

/-- The warning line emitted for a tolerated post-load script error,
translated from the source `console.warn` call. -/
def launchWarnMsg (targetName description : String) : String :=
  "Frida " ++ targetName ++ " injection error: " ++ description

/-- One step of the `launchScript` state machine, translated from the
source message handler and load continuation. An `error` message rejects
the promise with the diagnostic `CustomError` while `scriptLoaded` is
false, and is merely warned about once it is true; `log` messages with
blank payloads are discarded and others forwarded; any other message is
logged verbatim; load settlement resolves or rejects the promise; the
final assignment sets the flag. -/
def launchStep (targetName : String) (s : LaunchState) : LaunchEvent → LaunchState
  | .errorMsg d stk =>
      if s.scriptLoaded then
        { s with warnings := s.warnings ++ [launchWarnMsg targetName d] }
      else
        rejectProm s (.customError (launchFailMsg targetName d)
          (some (.fridaScriptError d stk)) "frida-script-error")
  | .logMsg lvl p =>
      if p.trim = "" then s
      else { s with logs := s.logs ++ ["Frida " ++ targetName ++ " [" ++ lvl ++ "]: " ++ p] }
  | .otherMsg text => { s with logs := s.logs ++ [text] }
  | .loadResolved => resolveProm s
  | .loadRejectedE e => rejectProm s e
  | .flagSet => { s with scriptLoaded := true }

/-- Run of `launchScript` over an event list. -/
def launchRun (targetName : String) (events : List LaunchEvent) : LaunchState :=
  events.foldl (launchStep targetName) launchInit

theorem launchStep_rejected (targetName : String) (s : LaunchState) (e : FError)
    (h : s.prom = .rejectedP e) (ev : LaunchEvent) :
    (launchStep targetName s ev).prom = .rejectedP e := by
  cases ev <;> simp [launchStep, rejectProm, resolveProm, h] <;> split <;> simp [h]

theorem launchRun_rejected_persists (targetName : String) (s : LaunchState) (e : FError)
    (h : s.prom = .rejectedP e) (events : List LaunchEvent) :
    (events.foldl (launchStep targetName) s).prom = .rejectedP e := by
  induction events generalizing s with
  | nil => exact h
  | cons ev evs ih => exact ih _ (launchStep_rejected targetName s e h ev)

/-- C3: an `error` message delivered while the launch promise is still
pending and `scriptLoaded` is still false rejects the whole launch with
the diagnostic `CustomError` caused by the `FridaScriptError`, whatever
happens afterwards; the diagnostic message contains the target label. -/
theorem launchScript_preload_error_fatal (target d : String) (stk : Option String)
    (pre post : List LaunchEvent)
    (h1 : (launchRun target pre).prom = .pending)
    (h2 : (launchRun target pre).scriptLoaded = false) :
    (launchRun target (pre ++ LaunchEvent.errorMsg d stk :: post)).prom
      = .rejectedP (.customError (launchFailMsg target d)
          (some (.fridaScriptError d stk)) "frida-script-error") ∧
    strContains (launchFailMsg target d) target := by
  refine ⟨?_, strContains_left _ _ _ (strContains_left _ _ _
    (strContains_right _ _ _ (strContains_refl target)))⟩
  have hstep : (launchStep target (launchRun target pre) (.errorMsg d stk)).prom
      = .rejectedP (.customError (launchFailMsg target d)
          (some (.fridaScriptError d stk)) "frida-script-error") := by
    simp [launchStep, h2, rejectProm, h1]
  show (List.foldl (launchStep target) launchInit
    (pre ++ LaunchEvent.errorMsg d stk :: post)).prom = _
  rw [List.foldl_append, List.foldl_cons]
  exact launchRun_rejected_persists target _ _ hstep post

/-- C3 witness: an `error` message arriving before anything else rejects
the launch with the diagnostic error naming the target. -/
theorem launchScript_preload_error_fatal_witness :
    (launchRun "my-app" [LaunchEvent.errorMsg "boom" none]).prom
      = .rejectedP (.customError (launchFailMsg "my-app" "boom")
          (some (.fridaScriptError "boom" none)) "frida-script-error") :=
  (launchScript_preload_error_fatal "my-app" "boom" none [] [] rfl rfl).1

/-- C4 (counterexample): an `error` message delivered after the load
request resolved the launch promise but before the `scriptLoaded = true`
assignment produces no warning at all (and the launch still succeeds) —
contradicting the claim that every post-resolution error is emitted as a
warning-level diagnostic. -/
theorem launchScript_window_error_unwarned :
    (launchRun "my-app" [LaunchEvent.loadResolved, LaunchEvent.errorMsg "boom" none,
        LaunchEvent.flagSet]).warnings = [] ∧
    (launchRun "my-app" [LaunchEvent.loadResolved, LaunchEvent.errorMsg "boom" none,
        LaunchEvent.flagSet]).prom = .resolvedP :=
  ⟨rfl, rfl⟩

/-- C4 (amended): an `error` message delivered while `scriptLoaded` is
true only appends a warning naming the target, leaving the promise (and
hence the operation's success) untouched; an `error` message delivered
after the promise resolved but before the flag assignment is dropped
entirely — in neither case is a post-resolution error raised to the
caller. -/
theorem launchScript_postload_error_warned (target d : String) (stk : Option String)
    (s : LaunchState) :
    (s.scriptLoaded = true →
      launchStep target s (.errorMsg d stk)
        = { s with warnings := s.warnings ++ [launchWarnMsg target d] } ∧
      strContains (launchWarnMsg target d) target) ∧
    (s.prom = .resolvedP → s.scriptLoaded = false →
      launchStep target s (.errorMsg d stk) = s) := by
  constructor
  · intro h
    exact ⟨by simp [launchStep, h], strContains_left _ _ _ (strContains_left _ _ _
      (strContains_right _ _ _ (strContains_refl target)))⟩
  · intro h1 h2
    simp [launchStep, h2, rejectProm, h1]

/-- C4 witness: with the flag set, an error is warned about; in the
resolved-but-unflagged window, it is dropped. -/
theorem launchScript_postload_error_warned_witness :
    launchStep "my-app" (launchRun "my-app" [LaunchEvent.loadResolved, LaunchEvent.flagSet])
        (.errorMsg "boom" none)
      = { launchRun "my-app" [LaunchEvent.loadResolved, LaunchEvent.flagSet] with
          warnings := (launchRun "my-app" [LaunchEvent.loadResolved,
            LaunchEvent.flagSet]).warnings ++ [launchWarnMsg "my-app" "boom"] } ∧
    launchStep "my-app" (launchRun "my-app" [LaunchEvent.loadResolved])
        (.errorMsg "boom" none)
      = launchRun "my-app" [LaunchEvent.loadResolved] :=
  ⟨((launchScript_postload_error_warned "my-app" "boom" none _).1 rfl).1,
   (launchScript_postload_error_warned "my-app" "boom" none _).2 rfl rfl⟩

/-- C10: in the window where the launch promise is already resolved but
`scriptLoaded` is still false, an `error` message changes nothing — the
handler's reject is a no-op on the settled promise and the warning branch
is not taken, so the error is silently dropped. -/
theorem launchScript_settled_window_drops_error (target d : String)
    (stk : Option String) (s : LaunchState)
    (h1 : s.prom = .resolvedP) (h2 : s.scriptLoaded = false) :
    launchStep target s (.errorMsg d stk) = s := by
  simp [launchStep, h2, rejectProm, h1]

/-- C10 witness: the window state is reachable (load resolved, flag not
yet assigned) and an error delivered there is a complete no-op. -/
theorem launchScript_settled_window_drops_error_witness :
    launchStep "my-app" (launchRun "my-app" [LaunchEvent.loadResolved])
        (.errorMsg "boom" none)
      = launchRun "my-app" [LaunchEvent.loadResolved] :=
  launchScript_settled_window_drops_error "my-app" "boom" none _ rfl rfl

/-! ### getFridaServer

The source requests the dependency under the key
`['frida-server', platform, arch, FRIDA_VERSION]` with extension `.bin`,
supplying a fetch function that destructures the key and downloads the
server with the integrity hash `FRIDA_SRIS.android[arch]`. -/

/-- The Frida version pinned by the integration. -/
def FRIDA_VERSION : String := "16.6.1"

/-- The supported architectures of the `arch` union type. -/
inductive Arch where
  | arm
  | arm64
  | x86
  | x86_64
deriving Repr, DecidableEq

/-- Architecture names as they appear in keys. -/
def Arch.name : Arch → String
  | .arm => "arm"
  | .arm64 => "arm64"
  | .x86 => "x86"
  | .x86_64 => "x86_64"

/-- The `FRIDA_SRIS.android` integrity-hash table, copied from the source. -/
def FRIDA_SRIS_android : Arch → String
  | .arm => "sha512-bLIDVOMwACFYC/tPkM2lsx7mdwLALnY1ScTqqAy+wkBD1kYPVx4LAF77hbIh49kotRyGll4FV2N0t3dD03I+OA=="
  | .arm64 => "sha512-kPcOEHSceFdts1nnUz/Vjmf2igyayEgCHc+slapr6GjCX0nC83eO8Psq8IF1UnDFx32jrVVvjRzJzTe6P5a85g=="
  | .x86 => "sha512-89IwpL5ki5nOU/sdjnQ7fItseUq1SpYr0HMMFKJMZzpfPQMNXFow5ps4l1ZpK/hdUFCVPHvxynhBc1ZTvcVDlQ=="
  | .x86_64 => "sha512-KBBj09sceLT6Sar4aTxZ1dJaoalBJZ4DfnoTRPER5KVwIAplTwbUVJtsnSI1gSWPyELq9XjO6ZjsWKOaQC79gg=="

/-- Arguments passed to `FridaJs.downloadFridaServer` by the fetch
function. -/
structure DownloadRequest where
  version : String
  platform : String
  arch : Arch
  sri : String
deriving Repr

/-- The dependency-stream request built by `getFridaServer`: the lookup
key, the file extension, and the fetch function (which receives the key
back and builds the download request). -/
structure DependencyStreamRequest where
  key : String × String × Arch × String
  ext : String
  fetch : String × String × Arch × String → DownloadRequest

/-- `getFridaServer`, translated from the source: requests the dependency
under `['frida-server', platform, arch, FRIDA_VERSION]` with extension
`.bin`; its fetch function downloads that version/platform/arch with the
integrity hash `FRIDA_SRIS.android[arch]`. The platform parameter of the
TypeScript function is the literal type `'android'`. -/
def getFridaServer (arch : Arch) : DependencyStreamRequest :=
  { key := ("frida-server", "android", arch, FRIDA_VERSION)
    ext := ".bin"
    fetch := fun (_, platform, arch, version) =>
      { version := version
        platform := platform
        arch := arch
        sri := FRIDA_SRIS_android arch } }

/-- C9: for every supported architecture, `getFridaServer` requests the
dependency under the key `('frida-server', 'android', arch, '16.6.1')`
with extension `.bin`, and the fetch function it supplies, applied to
that key, passes exactly the expected integrity hash of the
`(android, arch)` pair (pinned here literally) to the downloader. -/
theorem getFridaServer_key_and_sri (arch : Arch) :
    (getFridaServer arch).key = ("frida-server", "android", arch, "16.6.1") ∧
    (getFridaServer arch).ext = ".bin" ∧
    ((getFridaServer arch).fetch (getFridaServer arch).key).sri
      = FRIDA_SRIS_android arch ∧
    ((getFridaServer arch).fetch (getFridaServer arch).key).platform = "android" ∧
    ((getFridaServer arch).fetch (getFridaServer arch).key).version = "16.6.1" ∧
    FRIDA_SRIS_android arch
      = (match arch with
        | .arm => "sha512-bLIDVOMwACFYC/tPkM2lsx7mdwLALnY1ScTqqAy+wkBD1kYPVx4LAF77hbIh49kotRyGll4FV2N0t3dD03I+OA=="
        | .arm64 => "sha512-kPcOEHSceFdts1nnUz/Vjmf2igyayEgCHc+slapr6GjCX0nC83eO8Psq8IF1UnDFx32jrVVvjRzJzTe6P5a85g=="
        | .x86 => "sha512-89IwpL5ki5nOU/sdjnQ7fItseUq1SpYr0HMMFKJMZzpfPQMNXFow5ps4l1ZpK/hdUFCVPHvxynhBc1ZTvcVDlQ=="
        | .x86_64 => "sha512-KBBj09sceLT6Sar4aTxZ1dJaoalBJZ4DfnoTRPER5KVwIAplTwbUVJtsnSI1gSWPyELq9XjO6ZjsWKOaQC79gg==") := by
  cases arch <;> exact ⟨rfl, rfl, rfl, rfl, rfl, rfl⟩

end Frida
